import Mathlib

/-!
Shallow embedding of `src/script.js` (the `Portfolio` page controller of a
static portfolio site) and proofs about its observable behaviour.

Conventions of the embedding:
* DOM elements are records of the attributes the script reads or writes
  (class presence as `Bool` flags, text content as `String`).
* Optional page regions (`document.querySelector` results that may be `null`)
  are `Option` values; a JavaScript null dereference (TypeError) is modelled
  as `Except.error ()`.
* `localStorage` is an `Option String` (absent key = `none`).
* Timers are modelled explicitly: `setTimeout(f, 5000)` at time `now` records
  the firing time `now + 5000` in a pending list, and a separate step function
  models the timer firing.  `setInterval` is modelled as an iterated tick.
* JavaScript numbers only occur here as non-negative integers (scroll
  offsets, tick counts, milliseconds), modelled as `Nat`, except the fade-in
  transition delays `index * 0.1`, modelled exactly in `ℚ` (the double
  rounding of `0.1` is abstracted away).
-/

namespace Portfolio

/-- Whitespace test used both by the email regex class `[^\s@]` and by
`String.prototype.trim` (ASCII part; the inputs considered in this
development are ASCII, so the Unicode space characters of JavaScript's `\s`
are omitted). -/
def isJsSpace (c : Char) : Bool :=
  c == ' ' || c == '\t' || c == '\n' || c == '\r' || c == '\x0b' || c == '\x0c'

/-- Characters admitted by the regex character class `[^\s@]`. -/
def emailChar (c : Char) : Bool := !(isJsSpace c) && !(c == '@')

/-- Model of `String.prototype.trim` on a character list: strip whitespace from both
ends. -/
def jsTrim (cs : List Char) : List Char :=
  ((cs.dropWhile isJsSpace).reverse.dropWhile isJsSpace).reverse

/-- Model of `String.prototype.trim`. -/
def jsTrimStr (s : String) : String := (jsTrim s.toList).asString

/-- Split a character list at its first `'@'`, returning the part before and
the part after, or `none` when no `'@'` occurs. -/
def splitAtFirstAt : List Char → Option (List Char × List Char)
  | [] => none
  | c :: cs =>
    if c == '@' then some ([], cs)
    else
      match splitAtFirstAt cs with
      | some p => some (c :: p.1, p.2)
      | none => none

/-- Dot in interior position: the right-hand part `r` of the split admits a
decomposition `d ++ "." ++ t` with `d`, `t` nonempty iff some `'.'` occurs
neither first nor last in `r`. -/
def hasInnerDot (r : List Char) : Bool := ((r.drop 1).dropLast).contains '.'

/-- Function `validateEmail` of `script.js` lines 201-204, the regex
`^[^\s@]+@[^\s@]+\.[^\s@]+$`.  A string matches that anchored regex iff it
decomposes as `l ++ "@" ++ d ++ "." ++ t` with `l`, `d`, `t` nonempty and all
their characters in `[^\s@]`.  Since `l` is `@`-free, the `'@'` of any such
decomposition is the first `'@'` of the string; `d` and `t` are `@`-free and
whitespace-free iff the whole right part is; and the `d`/`"."`/`t` split
exists iff the right part has a dot in interior position. -/
def validateEmail (s : String) : Bool :=
  match splitAtFirstAt s.toList with
  | none => false
  | some p =>
    !(p.1.isEmpty) && p.1.all emailChar && p.2.all emailChar && hasInnerDot p.2

/-- A contact-form field: the input element's current value, the text of the
sibling error-message element, and whether the input carries the `error`
class. -/
structure FieldEl where
  value : String
  errorMsg : String
  errorClass : Bool
deriving DecidableEq

/-- The DOM state touched by `handleFormSubmit` / `showSuccessMessage`:
the three required fields, the `form-success` element (its text and whether
`style.display` shows it), and the firing times of outstanding
`setTimeout` hide callbacks. -/
structure ContactDom where
  name : FieldEl
  email : FieldEl
  message : FieldEl
  successText : String
  successVisible : Bool
  pendingHides : List Nat
deriving DecidableEq

/-- The reset loop of `handleFormSubmit` (lines 171-173): every
`.error-message` element's text is set to `''`.  Note that it does not touch
the `error` class on the inputs. -/
def clearMsg (f : FieldEl) : FieldEl := { f with errorMsg := "" }

/-- Function `showError` (lines 195-199): write the message into the sibling
error element and add the `error` class to the input. -/
def showError (f : FieldEl) (msg : String) : FieldEl :=
  { f with errorMsg := msg, errorClass := true }

/-- The template `` `${field.charAt(0).toUpperCase() + field.slice(1)} is required` ``
of line 181. -/
def jsRequiredMsg (field : String) : String :=
  (match field.toList with
   | [] => []
   | c :: cs => c.toUpper :: cs).asString ++ " is required"

/-- One pass of the per-field loop body of lines 176-187 : trim the value; if
empty show the required message; else, for the email field only, check the
format.  Returns the updated field and whether it kept `isValid` true. -/
def validateField (fieldName : String) (f : FieldEl) (isEmailField : Bool) :
    FieldEl × Bool :=
  let v := jsTrimStr f.value
  if v = "" then (showError f (jsRequiredMsg fieldName), false)
  else if isEmailField && !(validateEmail v) then
    (showError f "Please enter a valid email", false)
  else (f, true)

/-- Function `showSuccessMessage` (lines 206-213) invoked at time `now`: set the
success text, show the element, and schedule a hide callback for
`now + 5000`. -/
def showSuccessMessage (now : Nat) (d : ContactDom) : ContactDom :=
  { d with
    successText := "Thank you for your message! I will get back to you soon.",
    successVisible := true,
    pendingHides := d.pendingHides ++ [now + 5000] }

/-- A scheduled hide callback (line 210-212) firing at time `t`: if such a
timer is outstanding it sets `display = 'none'` unconditionally. -/
def fireHideTimer (t : Nat) (d : ContactDom) : ContactDom :=
  if t ∈ d.pendingHides then
    { d with successVisible := false, pendingHides := d.pendingHides.erase t }
  else d

/-- Model of `this.contactForm.reset()`: the markup carries no default values, so
every field value returns to the empty string. -/
def resetValue (f : FieldEl) : FieldEl := { f with value := "" }

/-- Function `handleFormSubmit` (lines 163-193) at time `now`: clear all error-message
texts, run the validation loop over `name`, `email`, `message` in order, and
on overall success show the success message and reset the form. -/
def handleFormSubmit (now : Nat) (d : ContactDom) : ContactDom :=
  let d0 : ContactDom :=
    { d with name := clearMsg d.name, email := clearMsg d.email,
             message := clearMsg d.message }
  let rn := validateField "name" d0.name false
  let re := validateField "email" d0.email true
  let rm := validateField "message" d0.message false
  let d1 : ContactDom := { d0 with name := rn.1, email := re.1, message := rm.1 }
  if rn.2 && re.2 && rm.2 then
    let d2 := showSuccessMessage now d1
    { d2 with name := resetValue d2.name, email := resetValue d2.email,
              message := resetValue d2.message }
  else d1

/-- Environment action, not code of the script: the user types new values
into the three inputs between two submits. -/
def setValues (n e m : String) (d : ContactDom) : ContactDom :=
  { d with name := { d.name with value := n },
           email := { d.email with value := e },
           message := { d.message with value := m } }

/-- A fresh form as the page loads it: empty values, no error text, no
`error` classes, hidden success element, no timers. -/
def freshForm : ContactDom :=
  ⟨⟨"", "", false⟩, ⟨"", "", false⟩, ⟨"", "", false⟩, "", false, []⟩

/-- JavaScript string falsiness for `!savedMode` on line 91: `null`
(absent key) and the empty string are falsy, every other string truthy. -/
def jsFalsyStr : Option String → Bool
  | none => true
  | some s => s == ""

/-- The DOM and storage state touched by the dark-mode feature when the
theme-toggle button and its icon are present: the `dark-mode` class on
`body`, the `fa-moon` / `fa-sun` classes on the icon, the `darkMode`
`localStorage` key, and the ambient `prefers-color-scheme: dark` media
query result. -/
structure ThemeState where
  bodyDark : Bool
  iconMoon : Bool
  iconSun : Bool
  stored : Option String
  sysDark : Bool
deriving DecidableEq

/-- Function `updateDarkModeIcon` (lines 103-107): `classList.toggle(c, flag)` forces
the presence of class `c` to `flag`. -/
def updateDarkModeIcon (isDarkMode : Bool) (s : ThemeState) : ThemeState :=
  { s with iconMoon := !isDarkMode, iconSun := isDarkMode }

/-- The guard of line 91: `savedMode === 'dark' || (!savedMode && systemPrefersDark)`. -/
def darkApplies (savedMode : Option String) (systemPrefersDark : Bool) : Bool :=
  savedMode == some "dark" || (jsFalsyStr savedMode && systemPrefersDark)

/-- Function `initDarkMode` (lines 86-95): when the saved preference is `'dark'`, or
absent with the system preferring dark, add the `dark-mode` class and set the
sun icon; otherwise do nothing at all. -/
def initDarkMode (s : ThemeState) : ThemeState :=
  if darkApplies s.stored s.sysDark then
    updateDarkModeIcon true { s with bodyDark := true }
  else s

/-- Function `toggleDarkMode` (lines 97-101): `classList.toggle` returns the new
presence of `dark-mode`; the icon follows it and the literal `'dark'` or
`'light'` is written to storage. -/
def toggleDarkMode (s : ThemeState) : ThemeState :=
  let s1 := { s with bodyDark := !s.bodyDark }
  let s2 := updateDarkModeIcon s1.bodyDark s1
  { s2 with stored := some (if s1.bodyDark then "dark" else "light") }

/-- The DOM state touched by `toggleMobileMenu` when the panel and hamburger
are present: the `active` classes on the two elements and the hamburger's
`aria-expanded` attribute (`none` = attribute absent, as `getAttribute`
returns `null`). -/
structure MenuDom where
  menuActive : Bool
  hambActive : Bool
  ariaExpanded : Option String
deriving DecidableEq

/-- Function `toggleMobileMenu` (lines 76-83): toggle both `active` classes, then set
`aria-expanded` to the stringified negation of `getAttribute(...) === 'true'`. -/
def toggleMobileMenu (s : MenuDom) : MenuDom :=
  let isExpanded := s.ariaExpanded == some "true"
  { menuActive := !s.menuActive,
    hambActive := !s.hambActive,
    ariaExpanded := some (if isExpanded then "false" else "true") }

/-- The initial closed menu of an accessible markup: both `active` classes
absent, `aria-expanded="false"`. -/
def closedMenu : MenuDom := ⟨false, false, some "false"⟩

/-- The open menu reached from `closedMenu` by one toggle. -/
def openMenu : MenuDom := ⟨true, true, some "true"⟩

/-- The menu panel is visible iff it carries the `active` class. -/
def menuIsOpen (s : MenuDom) : Bool := s.menuActive

/-- The hamburger is marked expanded iff its attribute is the string `"true"`. -/
def menuIsExpanded (s : MenuDom) : Bool := s.ariaExpanded == some "true"

/-- State of the typing animation (`typeEffect`, lines 59-73): the element's
current text, the counter `i`, and whether the interval is still running. -/
structure TypingState where
  shown : List Char
  i : Nat
  active : Bool
deriving DecidableEq

/-- The state right after `typeEffect` starts: the full text has been
captured into `text`, the element cleared, `i = 0`, interval running. -/
def typeEffectStart : TypingState := ⟨[], 0, true⟩

/-- Model of `String.prototype.charAt(i)`: the one-character string at index `i`, or
the empty string out of range. -/
def jsCharAt (cs : List Char) (i : Nat) : List Char := (cs.drop i).take 1

/-- One 100ms interval tick of `typeEffect`: while `i < text.length` append
`text.charAt(i)` and increment `i`; otherwise clear the interval.  A tick of
a cleared interval never runs, so it leaves the state unchanged. -/
def typeTick (text : List Char) (s : TypingState) : TypingState :=
  if s.active then
    if s.i < text.length then ⟨s.shown ++ jsCharAt text s.i, s.i + 1, true⟩
    else ⟨s.shown, s.i, false⟩
  else s

/-- A fade-in-flagged element (`setupScrollAnimations`, lines 138-160): the
`visible` class, whether the observer is still observing it, and its
`transitionDelay` (in seconds, exact arithmetic). -/
structure FadeElem where
  visible : Bool
  observed : Bool
  delay : ℚ
deriving DecidableEq

/-- Lines 154-158: each flagged element gets `transitionDelay = index * 0.1`
seconds and is then observed.  Markup elements start without the `visible`
class. -/
def setupScrollAnimations (n : Nat) : List FadeElem :=
  (List.range n).map (fun (i : Nat) => ⟨false, true, (i : ℚ) * (1 / 10)⟩)

/-- The observer callback body for one intersecting entry (lines 144-147):
add the `visible` class to the target and unobserve it. -/
def markVisibleAt : List FadeElem → Nat → List FadeElem
  | [], _ => []
  | el :: rest, 0 => { el with visible := true, observed := false } :: rest
  | el :: rest, j + 1 => el :: markVisibleAt rest j

/-- One `IntersectionObserver` entry `(target index, isIntersecting)`
processed by the callback of lines 142-148: non-intersecting entries are
ignored. -/
def applyEntry (els : List FadeElem) (e : Nat × Bool) : List FadeElem :=
  if e.2 then markVisibleAt els e.1 else els

/-- A whole history of observer entries, in delivery order. -/
def runObserver (els : List FadeElem) (events : List (Nat × Bool)) :
    List FadeElem :=
  events.foldl applyEntry els

/-- The one-shot invariant of the fade-in set: an element that has become
visible is no longer observed. -/
def FadeInv (els : List FadeElem) : Prop :=
  ∀ (j : Nat) (el : FadeElem),
    els[j]? = some el → el.visible = true → el.observed = false

/-- Class lists of a generic element, for the handlers that dereference
possibly-null `querySelector` results.  `classList.add` keeps the list
duplicate-free. -/
def addClass (c : String) (l : List String) : List String :=
  if l.contains c then l else l ++ [c]

/-- Model of `classList.remove`. -/
def removeClass (c : String) (l : List String) : List String := l.erase c

/-- Function `handleNavbarScroll` (lines 129-135) at scroll offset `scrollY`:
`this.navbar.classList` throws a TypeError when the navbar is absent
(`this.navbar` is `null`); otherwise the `scrolled` class is present after
the call iff `scrollY > 50`. -/
def handleNavbarScroll (scrollY : Nat) (navbar : Option (List String)) :
    Except Unit (List String) :=
  match navbar with
  | none => Except.error ()
  | some cls =>
    Except.ok (if 50 < scrollY then addClass "scrolled" cls
               else removeClass "scrolled" cls)

/-- Function `toggleMobileMenu` called when the panel or the hamburger may be absent:
line 77 dereferences `this.mobileMenu`, line 78 `this.hamburger`; either
being `null` throws.  (Partial mutations made before the throw are not
recorded: only the thrown/normal status and the fully-updated state are
claimed.)  The hamburger is carried as its `active` flag together with its
`aria-expanded` attribute. -/
def toggleMobileMenuJs (menu : Option Bool)
    (hamb : Option (Bool × Option String)) : Except Unit MenuDom :=
  match menu, hamb with
  | none, _ => Except.error ()
  | some _, none => Except.error ()
  | some m, some hp => Except.ok (toggleMobileMenu ⟨m, hp.1, hp.2⟩)

/-- The moon/sun classes of the icon inside the theme-toggle button. -/
structure IconCls where
  moon : Bool
  sun : Bool
deriving DecidableEq

/-- Function `updateDarkModeIcon` when the button or its icon child may be absent:
line 104 dereferences `this.darkModeToggle` (throws when the button is
absent), line 105 dereferences the `querySelector('i')` result (throws when
the button has no icon child).  `toggle` is `none` when the button is
absent, `some none` when it exists without an icon. -/
def updateDarkModeIconJs (toggle : Option (Option IconCls))
    (isDarkMode : Bool) : Except Unit IconCls :=
  match toggle with
  | none => Except.error ()
  | some none => Except.error ()
  | some (some _) => Except.ok ⟨!isDarkMode, isDarkMode⟩

/-- Function `initDarkMode` with a possibly-absent theme-toggle button: when a dark
preference applies, the `dark-mode` class is added and then the icon update
runs (and may throw); otherwise nothing is touched.  Returns the `dark-mode`
presence on `body` and the icon state it wrote, if any. -/
def initDarkModeJs (savedMode : Option String) (systemPrefersDark : Bool)
    (toggle : Option (Option IconCls)) : Except Unit (Bool × Option IconCls) :=
  if darkApplies savedMode systemPrefersDark then
    match updateDarkModeIconJs toggle true with
    | Except.error e => Except.error e
    | Except.ok ic => Except.ok (true, some ic)
  else Except.ok (false, none)

/-- The optional page regions `init` (lines 18-37) looks up, plus the two
pieces of ambient state the dark-mode feature reads. -/
structure PageDom where
  navbar : Option (List String)
  hamburger : Option (Bool × Option String)
  mobileMenu : Option Bool
  darkToggle : Option (Option IconCls)
  contactFormPresent : Bool
  yearPresent : Bool
  typingPresent : Bool
  fadeCount : Nat
  stored : Option String
  sysDark : Bool

/-- Which listeners `setupEventListeners` (lines 39-56) binds: every binding
uses optional chaining (`?.addEventListener`), so registration itself never
throws — an absent element just loses its listener. -/
structure BoundListeners where
  menuClick : Bool
  darkClick : Bool
  submit : Bool
deriving DecidableEq

/-- Function `setupEventListeners` as a total function: which handlers get bound. -/
def setupEventListeners (d : PageDom) : BoundListeners :=
  ⟨d.hamburger.isSome, d.darkToggle.isSome, d.contactFormPresent⟩

/-- The `init` sequence (lines 27-36) after the element lookups:
`setupEventListeners`, `setupScrollAnimations` (guarded by
`fadeElements.length > 0`), `setCopyrightYear` (guarded by element
existence), `initDarkMode` (which can throw), then the typing effect
(guarded by element existence).  Returns whether the typing effect was
started; a throw in `initDarkMode` aborts the rest of `init`. -/
def initSequence (d : PageDom) : Except Unit Bool :=
  let _listeners := setupEventListeners d
  let _fades := setupScrollAnimations d.fadeCount
  match initDarkModeJs d.stored d.sysDark d.darkToggle with
  | Except.error e => Except.error e
  | Except.ok _ => Except.ok d.typingPresent

/-! Helper lemmas. -/

lemma jsRequiredMsg_name : jsRequiredMsg "name" = "Name is required" := by decide

lemma jsRequiredMsg_email : jsRequiredMsg "email" = "Email is required" := by decide

lemma jsRequiredMsg_message : jsRequiredMsg "message" = "Message is required" := by
  decide

lemma toggleMobileMenu_closed : toggleMobileMenu closedMenu = openMenu := by decide

lemma toggleMobileMenu_open : toggleMobileMenu openMenu = closedMenu := by decide

lemma toggleMobileMenu_iterate (n : Nat) :
    toggleMobileMenu^[n] closedMenu =
      if n % 2 = 0 then closedMenu else openMenu := by
  induction n with
  | zero => rfl
  | succ k ih =>
    rw [Function.iterate_succ_apply', ih]
    rcases Nat.even_or_odd k with h | h
    · have h2 : k % 2 = 0 := Nat.even_iff.mp h
      have h3 : (k + 1) % 2 = 1 := by omega
      simp only [h2, h3, if_pos rfl]
      simp [toggleMobileMenu_closed]
    · have h2 : k % 2 = 1 := Nat.odd_iff.mp h
      have h3 : (k + 1) % 2 = 0 := by omega
      simp only [h2, h3]
      simp [toggleMobileMenu_open]

/-! Claim theorems. -/

/-- C6: starting from the initial closed state (both `active` classes
absent, `aria-expanded="false"`), an even number of `toggleMobileMenu` calls
returns the hamburger's expanded attribute and the panel's visibility to the
initial closed state, an odd number leaves the menu open, and after every
toggle the menu is open iff the hamburger is marked expanded. -/
theorem c6_menu_toggle_parity :
    (∀ k : Nat, toggleMobileMenu^[2 * k] closedMenu = closedMenu) ∧
    (∀ k : Nat, menuIsOpen (toggleMobileMenu^[2 * k + 1] closedMenu) = true) ∧
    (∀ n : Nat, 1 ≤ n →
      menuIsOpen (toggleMobileMenu^[n] closedMenu) =
        menuIsExpanded (toggleMobileMenu^[n] closedMenu)) := by
  refine ⟨?_, ?_, ?_⟩
  · intro k
    rw [toggleMobileMenu_iterate]
    have h : (2 * k) % 2 = 0 := by omega
    simp [h]
  · intro k
    rw [toggleMobileMenu_iterate]
    have h : (2 * k + 1) % 2 = 1 := by omega
    simp [h]
    decide
  · intro n _
    rw [toggleMobileMenu_iterate]
    rcases Nat.even_or_odd n with h | h
    · have h2 : n % 2 = 0 := Nat.even_iff.mp h
      simp [h2]
      decide
    · have h2 : n % 2 = 1 := Nat.odd_iff.mp h
      simp [h2]
      decide

/-- Witness for C6 at two, three and one toggles. -/
theorem c6_menu_toggle_parity_witness :
    (toggleMobileMenu^[2 * 1] closedMenu = closedMenu) ∧
    (menuIsOpen (toggleMobileMenu^[2 * 1 + 1] closedMenu) = true) ∧
    (menuIsOpen (toggleMobileMenu^[1] closedMenu) =
      menuIsExpanded (toggleMobileMenu^[1] closedMenu)) :=
  ⟨c6_menu_toggle_parity.1 1, c6_menu_toggle_parity.2.1 1,
   c6_menu_toggle_parity.2.2 1 (by decide)⟩

/-- C5 as stated is false: on a first visit with an ambient dark preference,
`initDarkMode` applies dark visuals while `localStorage` stays absent; from
that reachable state two toggles leave the stored preference at `"dark"`,
not at its original absent state. -/
theorem c5_counterexample :
    (⟨true, false, true, none, true⟩ : ThemeState).stored = none ∧
    (toggleDarkMode (toggleDarkMode ⟨true, false, true, none, true⟩)).stored =
      some "dark" := by
  constructor <;> rfl

/-- C5 amended: toggling twice always restores the body's dark/light class,
and restores the persisted value provided the persisted value already
equalled the literal (`"dark"`/`"light"`) of the visual state; toggling once
writes exactly the literal matching the resulting visual state, so after any
toggle the visual theme equals the stored preference. -/
theorem c5_theme_toggle_amended (s : ThemeState) :
    ((toggleDarkMode (toggleDarkMode s)).bodyDark = s.bodyDark) ∧
    ((toggleDarkMode s).stored =
      some (if (toggleDarkMode s).bodyDark then "dark" else "light")) ∧
    (s.stored = some (if s.bodyDark then "dark" else "light") →
      (toggleDarkMode (toggleDarkMode s)).stored = s.stored) := by
  obtain ⟨b, m, su, st, sd⟩ := s
  refine ⟨?_, ?_, ?_⟩
  · cases b <;> simp [toggleDarkMode, updateDarkModeIcon]
  · cases b <;> simp [toggleDarkMode, updateDarkModeIcon]
  · intro h
    cases b <;> simp_all [toggleDarkMode, updateDarkModeIcon]

/-- Witness for C5 at a state whose stored value matches its visual state. -/
theorem c5_theme_toggle_amended_witness :
    ((toggleDarkMode (toggleDarkMode ⟨false, true, false, some "light", false⟩)).bodyDark
       = (⟨false, true, false, some "light", false⟩ : ThemeState).bodyDark) ∧
    ((toggleDarkMode ⟨false, true, false, some "light", false⟩).stored =
      some (if (toggleDarkMode ⟨false, true, false, some "light", false⟩).bodyDark
            then "dark" else "light")) ∧
    ((toggleDarkMode (toggleDarkMode ⟨false, true, false, some "light", false⟩)).stored
       = (⟨false, true, false, some "light", false⟩ : ThemeState).stored) :=
  ⟨(c5_theme_toggle_amended ⟨false, true, false, some "light", false⟩).1,
   (c5_theme_toggle_amended ⟨false, true, false, some "light", false⟩).2.1,
   (c5_theme_toggle_amended ⟨false, true, false, some "light", false⟩).2.2 rfl⟩

/-- C3 as stated is false on the light path: with no stored preference and
no ambient dark preference `initDarkMode` takes its else-branch and touches
nothing, so the icon keeps whatever marker classes the markup gave it.
Starting from a markup whose icon carries `fa-sun` (and not `fa-moon`), the
load result is light visuals but a sun icon, not the claimed moon state. -/
theorem c3_counterexample :
    ((initDarkMode ⟨false, false, true, none, false⟩).bodyDark = false) ∧
    ((initDarkMode ⟨false, false, true, none, false⟩).iconMoon = false) ∧
    ((initDarkMode ⟨false, false, true, none, false⟩).iconSun = true) := by
  refine ⟨rfl, rfl, rfl⟩

/-- C3 amended: on a load whose body starts without the dark class and whose
stored preference lies in the documented domain, the applied theme is the
stored preference if present, else the ambient scheme preference, else
light; with no stored preference and an ambient dark preference the result
is dark visuals and a sun icon; with no stored preference and no ambient
dark preference the result is light visuals with the icon left exactly as
the markup had it (a moon state only if it started as one). -/
theorem c3_theme_init_amended (s : ThemeState) (hbody : s.bodyDark = false)
    (hdom : s.stored = none ∨ s.stored = some "dark" ∨ s.stored = some "light") :
    ((initDarkMode s).bodyDark =
      (s.stored == some "dark" || (s.stored == none && s.sysDark))) ∧
    (s.stored = none → s.sysDark = true →
      (initDarkMode s).bodyDark = true ∧ (initDarkMode s).iconSun = true ∧
      (initDarkMode s).iconMoon = false) ∧
    (s.stored = none → s.sysDark = false → initDarkMode s = s) := by
  obtain ⟨b, m, su, st, sd⟩ := s
  simp only at hbody
  subst hbody
  rcases hdom with h | h | h <;> simp only at h <;> subst h <;>
    cases sd <;>
    simp [initDarkMode, darkApplies, jsFalsyStr, updateDarkModeIcon]

/-- Witness for C3 on a first visit with ambient dark preference and a
markup moon icon. -/
theorem c3_theme_init_amended_witness :
    ((initDarkMode ⟨false, true, false, none, true⟩).bodyDark =
      ((⟨false, true, false, none, true⟩ : ThemeState).stored == some "dark" ||
       ((⟨false, true, false, none, true⟩ : ThemeState).stored == none &&
        (⟨false, true, false, none, true⟩ : ThemeState).sysDark))) ∧
    ((initDarkMode ⟨false, true, false, none, true⟩).bodyDark = true ∧
     (initDarkMode ⟨false, true, false, none, true⟩).iconSun = true ∧
     (initDarkMode ⟨false, true, false, none, true⟩).iconMoon = false) :=
  ⟨(c3_theme_init_amended ⟨false, true, false, none, true⟩ rfl (Or.inl rfl)).1,
   (c3_theme_init_amended ⟨false, true, false, none, true⟩ rfl (Or.inl rfl)).2.1
     rfl rfl⟩

/-- C1 as stated is false: the scroll handler is registered on `window`
unconditionally, and on a page without a navigation bar its very first
statement `this.navbar.classList` throws a TypeError instead of leaving the
feature inert. -/
theorem c1_counterexample : handleNavbarScroll 100 none = Except.error () := rfl

/-- C1 amended: event-listener registration itself is defensive (optional
chaining) and, when no dark preference applies, the whole `init` sequence
completes whatever elements are absent; but the handlers are not: the scroll
handler throws whenever the navbar is absent (and only then), the
mobile-menu toggle throws when the menu panel is absent, and when a dark
preference applies `initDarkMode` throws if the theme-toggle button is
absent — which also aborts the remainder of initialization, so the typing
effect never starts. -/
theorem c1_defensive_binding_amended :
    (∀ y : Nat, handleNavbarScroll y none = Except.error ()) ∧
    (∀ (y : Nat) (cls : List String),
      (handleNavbarScroll y (some cls)).isOk = true) ∧
    (∀ h : Option (Bool × Option String),
      toggleMobileMenuJs none h = Except.error ()) ∧
    (∀ (m hb : Bool) (a : Option String),
      (toggleMobileMenuJs (some m) (some (hb, a))).isOk = true) ∧
    (∀ (st : Option String) (sd : Bool) (t : Option (Option IconCls)),
      darkApplies st sd = false → initDarkModeJs st sd t = Except.ok (false, none)) ∧
    (∀ (st : Option String) (sd : Bool),
      darkApplies st sd = true → initDarkModeJs st sd none = Except.error ()) ∧
    (∀ d : PageDom, darkApplies d.stored d.sysDark = true → d.darkToggle = none →
      initSequence d = Except.error ()) ∧
    (∀ d : PageDom, darkApplies d.stored d.sysDark = false →
      initSequence d = Except.ok d.typingPresent) := by
  refine ⟨fun y => rfl, fun y cls => rfl, fun h => rfl, fun m hb a => rfl,
    ?_, ?_, ?_, ?_⟩
  · intro st sd t h
    simp [initDarkModeJs, h]
  · intro st sd h
    simp [initDarkModeJs, updateDarkModeIconJs, h]
  · intro d h ht
    simp [initSequence, initDarkModeJs, updateDarkModeIconJs, h, ht]
  · intro d h
    simp [initSequence, initDarkModeJs, h]

/-- A page with every optional region absent and no dark preference. -/
def pageAllAbsentLight : PageDom :=
  ⟨none, none, none, none, false, false, false, 0, none, false⟩

/-- A page with every optional region absent whose environment prefers a
dark scheme. -/
def pageAllAbsentDark : PageDom :=
  ⟨none, none, none, none, false, false, false, 0, none, true⟩

/-- Witness for C1 at concrete pages and handler arguments. -/
theorem c1_defensive_binding_amended_witness :
    (handleNavbarScroll 60 none = Except.error ()) ∧
    ((handleNavbarScroll 60 (some [])).isOk = true) ∧
    (toggleMobileMenuJs none none = Except.error ()) ∧
    ((toggleMobileMenuJs (some false) (some (false, some "false"))).isOk = true) ∧
    (initDarkModeJs (some "light") false none = Except.ok (false, none)) ∧
    (initDarkModeJs (some "dark") false none = Except.error ()) ∧
    (initSequence pageAllAbsentDark = Except.error ()) ∧
    (initSequence pageAllAbsentLight = Except.ok false) :=
  ⟨c1_defensive_binding_amended.1 60,
   c1_defensive_binding_amended.2.1 60 [],
   c1_defensive_binding_amended.2.2.1 none,
   c1_defensive_binding_amended.2.2.2.1 false false (some "false"),
   c1_defensive_binding_amended.2.2.2.2.1 (some "light") false none (by decide),
   c1_defensive_binding_amended.2.2.2.2.2.1 (some "dark") false (by decide),
   c1_defensive_binding_amended.2.2.2.2.2.2.1 pageAllAbsentDark (by decide) rfl,
   c1_defensive_binding_amended.2.2.2.2.2.2.2 pageAllAbsentLight (by decide)⟩

/-- C2 as stated is false on repeated submits: the reset loop of lines
171-173 blanks only the error-message texts, never the `error` class added
by `showError`, so a field that failed on an earlier attempt stays marked
invalid even once it is filled in.  Concretely: submit everything empty,
fill in the name, submit again — the name field has an empty message yet
still carries the `error` class. -/
theorem c2_counterexample :
    ((handleFormSubmit 1 (setValues "a" "" "" (handleFormSubmit 0 freshForm))).name.errorMsg
       = "") ∧
    ((handleFormSubmit 1 (setValues "a" "" "" (handleFormSubmit 0 freshForm))).name.errorClass
       = true) ∧
    jsTrimStr (setValues "a" "" "" (handleFormSubmit 0 freshForm)).name.value ≠ "" := by
  refine ⟨by decide, by decide, by decide⟩

/-- C2 amended: on a submit with some field empty after trimming, the form
is not reset, the success element is untouched, every error-message text is
recomputed (the empty fields get exactly the literal required message and
the `error` class, a filled valid field gets an empty message), but the
`error` class is only ever added, so classes from prior attempts persist on
now-valid fields. -/
theorem c2_required_fields_amended (now : Nat) (d : ContactDom)
    (hsome : jsTrimStr d.name.value = "" ∨ jsTrimStr d.email.value = "" ∨
             jsTrimStr d.message.value = "") :
    ((handleFormSubmit now d).name.value = d.name.value ∧
     (handleFormSubmit now d).email.value = d.email.value ∧
     (handleFormSubmit now d).message.value = d.message.value) ∧
    ((handleFormSubmit now d).successVisible = d.successVisible ∧
     (handleFormSubmit now d).successText = d.successText ∧
     (handleFormSubmit now d).pendingHides = d.pendingHides) ∧
    (jsTrimStr d.name.value = "" →
      (handleFormSubmit now d).name.errorMsg = "Name is required" ∧
      (handleFormSubmit now d).name.errorClass = true) ∧
    (jsTrimStr d.name.value ≠ "" →
      (handleFormSubmit now d).name.errorMsg = "" ∧
      (handleFormSubmit now d).name.errorClass = d.name.errorClass) ∧
    (jsTrimStr d.email.value = "" →
      (handleFormSubmit now d).email.errorMsg = "Email is required" ∧
      (handleFormSubmit now d).email.errorClass = true) ∧
    (jsTrimStr d.email.value ≠ "" →
      validateEmail (jsTrimStr d.email.value) = false →
      (handleFormSubmit now d).email.errorMsg = "Please enter a valid email" ∧
      (handleFormSubmit now d).email.errorClass = true) ∧
    (jsTrimStr d.email.value ≠ "" →
      validateEmail (jsTrimStr d.email.value) = true →
      (handleFormSubmit now d).email.errorMsg = "" ∧
      (handleFormSubmit now d).email.errorClass = d.email.errorClass) ∧
    (jsTrimStr d.message.value = "" →
      (handleFormSubmit now d).message.errorMsg = "Message is required" ∧
      (handleFormSubmit now d).message.errorClass = true) ∧
    (jsTrimStr d.message.value ≠ "" →
      (handleFormSubmit now d).message.errorMsg = "" ∧
      (handleFormSubmit now d).message.errorClass = d.message.errorClass) := by
  by_cases h1 : jsTrimStr d.name.value = "" <;>
    by_cases h2 : jsTrimStr d.email.value = "" <;>
    by_cases h3 : jsTrimStr d.message.value = "" <;>
    by_cases h4 : validateEmail (jsTrimStr d.email.value) = true <;>
    simp_all [handleFormSubmit, validateField, clearMsg, showError,
      showSuccessMessage, resetValue, jsRequiredMsg_name, jsRequiredMsg_email,
      jsRequiredMsg_message]

/-- Witness for C2 at the first submit of a fresh, fully empty form. -/
theorem c2_required_fields_amended_witness :
    ((handleFormSubmit 0 freshForm).name.errorMsg = "Name is required" ∧
     (handleFormSubmit 0 freshForm).name.errorClass = true) ∧
    ((handleFormSubmit 0 freshForm).successVisible = freshForm.successVisible ∧
     (handleFormSubmit 0 freshForm).successText = freshForm.successText ∧
     (handleFormSubmit 0 freshForm).pendingHides = freshForm.pendingHides) :=
  ⟨(c2_required_fields_amended 0 freshForm (Or.inl rfl)).2.2.1 rfl,
   (c2_required_fields_amended 0 freshForm (Or.inl rfl)).2.1⟩

/-- C4: `validateEmail` accepts `"a@b.co"` and rejects `"a@b"`,
`"a b@c.com"` and `"abc.com"`; and a submit whose email is empty after
trimming shows the required-field message, not the format message, because
the required check of line 180 runs before the format check of line 183. -/
theorem c4_email_validation :
    validateEmail "a@b.co" = true ∧
    validateEmail "a@b" = false ∧
    validateEmail "a b@c.com" = false ∧
    validateEmail "abc.com" = false ∧
    (∀ (now : Nat) (d : ContactDom), jsTrimStr d.email.value = "" →
      (handleFormSubmit now d).email.errorMsg = "Email is required" ∧
      (handleFormSubmit now d).email.errorMsg ≠ "Please enter a valid email") := by
  refine ⟨by decide, by decide, by decide, by decide, ?_⟩
  intro now d h2
  by_cases h1 : jsTrimStr d.name.value = "" <;>
    by_cases h3 : jsTrimStr d.message.value = "" <;>
    simp_all [handleFormSubmit, validateField, clearMsg, showError,
      showSuccessMessage, resetValue, jsRequiredMsg_name, jsRequiredMsg_email,
      jsRequiredMsg_message]

/-- Witness for C4's universal part at a fresh, fully empty form. -/
theorem c4_email_validation_witness :
    (handleFormSubmit 0 freshForm).email.errorMsg = "Email is required" ∧
    (handleFormSubmit 0 freshForm).email.errorMsg ≠ "Please enter a valid email" :=
  c4_email_validation.2.2.2.2 0 freshForm rfl

/-- C7: a submit with all three fields non-empty after trimming and a valid
email shows exactly the success string, resets the fields to empty,
schedules the hide callback for `now + 5000`, and that callback, when it
fires, hides the success element again. -/
theorem c7_success_submit (now : Nat) (d : ContactDom)
    (hn : jsTrimStr d.name.value ≠ "") (he : jsTrimStr d.email.value ≠ "")
    (hev : validateEmail (jsTrimStr d.email.value) = true)
    (hm : jsTrimStr d.message.value ≠ "") :
    (handleFormSubmit now d).successText =
      "Thank you for your message! I will get back to you soon." ∧
    (handleFormSubmit now d).successVisible = true ∧
    (handleFormSubmit now d).name.value = "" ∧
    (handleFormSubmit now d).email.value = "" ∧
    (handleFormSubmit now d).message.value = "" ∧
    (now + 5000) ∈ (handleFormSubmit now d).pendingHides ∧
    (fireHideTimer (now + 5000) (handleFormSubmit now d)).successVisible = false := by
  simp [handleFormSubmit, validateField, clearMsg, showError, showSuccessMessage,
    resetValue, fireHideTimer, hn, he, hm, hev]

/-- Witness for C7 at a concrete fully valid submit. -/
theorem c7_success_submit_witness :
    (handleFormSubmit 0 (setValues "John" "a@b.co" "Hi" freshForm)).successText =
      "Thank you for your message! I will get back to you soon." ∧
    (handleFormSubmit 0 (setValues "John" "a@b.co" "Hi" freshForm)).successVisible = true ∧
    (handleFormSubmit 0 (setValues "John" "a@b.co" "Hi" freshForm)).name.value = "" ∧
    (handleFormSubmit 0 (setValues "John" "a@b.co" "Hi" freshForm)).email.value = "" ∧
    (handleFormSubmit 0 (setValues "John" "a@b.co" "Hi" freshForm)).message.value = "" ∧
    (0 + 5000) ∈ (handleFormSubmit 0 (setValues "John" "a@b.co" "Hi" freshForm)).pendingHides ∧
    (fireHideTimer (0 + 5000)
      (handleFormSubmit 0 (setValues "John" "a@b.co" "Hi" freshForm))).successVisible = false :=
  c7_success_submit 0 (setValues "John" "a@b.co" "Hi" freshForm)
    (by decide) (by decide) (by decide) (by decide)

/-- C10 (implicit): `showSuccessMessage` never cancels an outstanding hide
timer, so after a second fully valid submit at `t2` within 5000ms of a first
valid submit at `t1`, the first submit's timer is still pending; when it
fires at `t1 + 5000` it hides the success element, only `t1 + 5000 - t2 <
5000` milliseconds after the second message appeared. -/
theorem c10_hide_timer_not_superseded (t1 t2 : Nat) (d : ContactDom)
    (n2 e2 m2 : String)
    (hd1 : jsTrimStr d.name.value ≠ "") (hd2 : jsTrimStr d.email.value ≠ "")
    (hd3 : validateEmail (jsTrimStr d.email.value) = true)
    (hd4 : jsTrimStr d.message.value ≠ "")
    (h21 : jsTrimStr n2 ≠ "") (h22 : jsTrimStr e2 ≠ "")
    (h23 : validateEmail (jsTrimStr e2) = true) (h24 : jsTrimStr m2 ≠ "")
    (ht : t1 < t2) (ht5 : t2 < t1 + 5000) :
    ((handleFormSubmit t2 (setValues n2 e2 m2 (handleFormSubmit t1 d))).successVisible
       = true) ∧
    ((t1 + 5000) ∈
      (handleFormSubmit t2 (setValues n2 e2 m2 (handleFormSubmit t1 d))).pendingHides) ∧
    ((fireHideTimer (t1 + 5000)
        (handleFormSubmit t2 (setValues n2 e2 m2 (handleFormSubmit t1 d)))).successVisible
       = false) ∧
    (t1 + 5000 - t2 < 5000) := by
  refine ⟨?_, ?_, ?_, by omega⟩ <;>
    simp [handleFormSubmit, validateField, clearMsg, showError, showSuccessMessage,
      resetValue, setValues, fireHideTimer, hd1, hd2, hd3, hd4, h21, h22, h23, h24]

/-- Witness for C10 at two concrete valid submits 1ms apart. -/
theorem c10_hide_timer_not_superseded_witness :
    ((handleFormSubmit 1 (setValues "Jo" "a@b.co" "Yo"
        (handleFormSubmit 0 (setValues "John" "a@b.co" "Hi" freshForm)))).successVisible
       = true) ∧
    ((0 + 5000) ∈
      (handleFormSubmit 1 (setValues "Jo" "a@b.co" "Yo"
        (handleFormSubmit 0 (setValues "John" "a@b.co" "Hi" freshForm)))).pendingHides) ∧
    ((fireHideTimer (0 + 5000)
        (handleFormSubmit 1 (setValues "Jo" "a@b.co" "Yo"
          (handleFormSubmit 0 (setValues "John" "a@b.co" "Hi" freshForm))))).successVisible
       = false) ∧
    (0 + 5000 - 1 < 5000) :=
  c10_hide_timer_not_superseded 0 1 (setValues "John" "a@b.co" "Hi" freshForm)
    "Jo" "a@b.co" "Yo" (by decide) (by decide) (by decide) (by decide)
    (by decide) (by decide) (by decide) (by decide) (by decide) (by decide)

lemma jsCharAt_eq_get (cs : List Char) (i : Nat) (h : i < cs.length) :
    jsCharAt cs i = [cs.get ⟨i, h⟩] := by
  induction cs generalizing i with
  | nil => simp at h
  | cons c rest ih =>
    cases i with
    | zero => rfl
    | succ j =>
      have hj : j < rest.length := by simpa using h
      simpa [jsCharAt] using ih j hj

lemma typeTick_iterate_le (text : List Char) :
    ∀ k, k ≤ text.length →
      (typeTick text)^[k] typeEffectStart = ⟨text.take k, k, true⟩ := by
  intro k
  induction k with
  | zero => intro _; rfl
  | succ j ih =>
    intro h
    have hj : j < text.length := by omega
    rw [Function.iterate_succ_apply', ih (by omega)]
    simp only [typeTick, if_pos rfl, hj, if_pos hj]
    rw [jsCharAt_eq_get text j hj, List.take_succ,
        List.getElem?_eq_getElem hj]
    simp [List.get_eq_getElem]

lemma typeTick_iterate_gt (text : List Char) :
    ∀ m, (typeTick text)^[text.length + 1 + m] typeEffectStart =
      ⟨text, text.length, false⟩ := by
  intro m
  induction m with
  | zero =>
    rw [show text.length + 1 + 0 = text.length + 1 from rfl,
        Function.iterate_succ_apply',
        typeTick_iterate_le text text.length (le_refl _)]
    simp [typeTick]
  | succ j ih =>
    have h : text.length + 1 + (j + 1) = (text.length + 1 + j) + 1 := by omega
    rw [h, Function.iterate_succ_apply', ih]
    simp [typeTick]

/-- C8: once started, the typing effect has captured the full text and
cleared the element; after `k` ticks the element shows exactly the first `k`
characters of the original text (each tick appends one character); while
characters remain the interval keeps running, after the tick following the
last character the interval is cleared with the element showing the whole
original text, and a cleared interval never ticks again, so the effect
cannot restart. -/
theorem c8_typing_effect (text : List Char) (k : Nat) :
    (typeEffectStart.shown = [] ∧ typeEffectStart.active = true) ∧
    (((typeTick text)^[k] typeEffectStart).shown = text.take k) ∧
    (k ≤ text.length → ((typeTick text)^[k] typeEffectStart).active = true) ∧
    (text.length + 1 ≤ k →
      ((typeTick text)^[k] typeEffectStart).active = false ∧
      ((typeTick text)^[k] typeEffectStart).shown = text) ∧
    (∀ s : TypingState, s.active = false → typeTick text s = s) := by
  refine ⟨⟨rfl, rfl⟩, ?_, ?_, ?_, ?_⟩
  · by_cases h : k ≤ text.length
    · rw [typeTick_iterate_le text k h]
    · have h2 : text.length + 1 + (k - text.length - 1) = k := by omega
      rw [← h2, typeTick_iterate_gt]
      show text = text.take (text.length + 1 + (k - text.length - 1))
      exact (List.take_of_length_le (by omega)).symm
  · intro h
    rw [typeTick_iterate_le text k h]
  · intro h
    have h2 : text.length + 1 + (k - text.length - 1) = k := by omega
    rw [← h2, typeTick_iterate_gt]
    exact ⟨rfl, rfl⟩
  · intro s hs
    simp [typeTick, hs]

/-- Witness for C8 on the text "hi" after three ticks. -/
theorem c8_typing_effect_witness :
    (((typeTick "hi".toList)^[3] typeEffectStart).active = false) ∧
    (((typeTick "hi".toList)^[3] typeEffectStart).shown = "hi".toList) ∧
    (((typeTick "hi".toList)^[1] typeEffectStart).shown = "hi".toList.take 1) ∧
    (((typeTick "hi".toList)^[1] typeEffectStart).active = true) :=
  ⟨((c8_typing_effect "hi".toList 3).2.2.2.1 (by decide)).1,
   ((c8_typing_effect "hi".toList 3).2.2.2.1 (by decide)).2,
   (c8_typing_effect "hi".toList 1).2.1,
   (c8_typing_effect "hi".toList 1).2.2.1 (by decide)⟩

lemma markVisibleAt_getElem? (els : List FadeElem) (j i : Nat) :
    (markVisibleAt els j)[i]? =
      (els[i]?).map (fun el =>
        if i = j then { el with visible := true, observed := false } else el) := by
  induction els generalizing i j with
  | nil => simp [markVisibleAt]
  | cons el rest ih =>
    cases j with
    | zero =>
      cases i with
      | zero => simp [markVisibleAt]
      | succ i2 => simp [markVisibleAt]
    | succ j2 =>
      cases i with
      | zero => simp [markVisibleAt]
      | succ i2 => simp [markVisibleAt, ih]

lemma applyEntry_visible_mono (els : List FadeElem) (e : Nat × Bool) (i : Nat)
    (h : (els[i]?).map FadeElem.visible = some true) :
    ((applyEntry els e)[i]?).map FadeElem.visible = some true := by
  unfold applyEntry
  split
  · rw [markVisibleAt_getElem?]
    cases hg : els[i]? with
    | none => rw [hg] at h; simp at h
    | some el =>
      rw [hg] at h
      simp at h
      by_cases hie : i = e.1 <;> simp [hg, hie, h]
  · exact h

lemma runObserver_visible_mono (events : List (Nat × Bool)) :
    ∀ (els : List FadeElem) (i : Nat),
      (els[i]?).map FadeElem.visible = some true →
      ((runObserver els events)[i]?).map FadeElem.visible = some true := by
  induction events with
  | nil => intro els i h; exact h
  | cons e rest ih =>
    intro els i h
    simp only [runObserver, List.foldl]
    exact ih (applyEntry els e) i (applyEntry_visible_mono els e i h)

lemma applyEntry_inv (els : List FadeElem) (e : Nat × Bool)
    (h : FadeInv els) : FadeInv (applyEntry els e) := by
  intro j el hj hv
  unfold applyEntry at hj
  by_cases he : e.2 = true
  · rw [if_pos he, markVisibleAt_getElem?] at hj
    cases hg : els[j]? with
    | none => rw [hg] at hj; simp at hj
    | some el0 =>
      rw [hg] at hj
      simp at hj
      by_cases hje : j = e.1
      · rw [if_pos hje] at hj
        rw [← hj]
      · rw [if_neg hje] at hj
        exact h j el (by rw [hg, hj]) hv
  · rw [if_neg he] at hj
    exact h j el hj hv

lemma runObserver_inv (events : List (Nat × Bool)) :
    ∀ els : List FadeElem, FadeInv els → FadeInv (runObserver els events) := by
  induction events with
  | nil => intro els h; exact h
  | cons e rest ih =>
    intro els h
    simp only [runObserver, List.foldl]
    exact ih (applyEntry els e) (applyEntry_inv els e h)

lemma setupScrollAnimations_getElem? (n i : Nat) :
    (setupScrollAnimations n)[i]? =
      if i < n then some ⟨false, true, (i : ℚ) * (1 / 10)⟩ else none := by
  unfold setupScrollAnimations
  by_cases h : i < n
  · rw [if_pos h, List.getElem?_map, List.getElem?_range h, Option.map_some']
  · rw [if_neg h, List.getElem?_map,
        List.getElem?_eq_none_iff.mpr (by simpa using Nat.le_of_not_lt h),
        Option.map_none']

lemma setupScrollAnimations_inv (n : Nat) : FadeInv (setupScrollAnimations n) := by
  intro j el hj hv
  rw [setupScrollAnimations_getElem?] at hj
  split at hj
  · cases hj
    simp at hv
  · cases hj

/-- C9: on setup, the `i`-th fade-in-flagged element gets transition delay
`i * 0.1` seconds, is unmarked and observed; over any sequence of observer
entries the `visible` mark is monotone (never reverts, hence the
pending-to-visible transition happens at most once along any run); an
element that has become visible is no longer observed, both initially and
after any run; and a further intersection entry for an already-visible
element changes nothing. -/
theorem c9_fade_in_one_shot (n : Nat) (events : List (Nat × Bool)) (i : Nat) :
    ((setupScrollAnimations n)[i]? =
      if i < n then some ⟨false, true, (i : ℚ) * (1 / 10)⟩ else none) ∧
    (∀ els : List FadeElem, (els[i]?).map FadeElem.visible = some true →
      ((runObserver els events)[i]?).map FadeElem.visible = some true) ∧
    FadeInv (setupScrollAnimations n) ∧
    (∀ els : List FadeElem, FadeInv els → FadeInv (runObserver els events)) ∧
    (∀ (els : List FadeElem) (el : FadeElem), FadeInv els →
      els[i]? = some el → el.visible = true → applyEntry els (i, true) = els) := by
  refine ⟨setupScrollAnimations_getElem? n i,
    fun els h => runObserver_visible_mono events els i h,
    setupScrollAnimations_inv n,
    fun els h => runObserver_inv events els h,
    ?_⟩
  intro els el hinv hg hv
  have ho : el.observed = false := hinv i el hg hv
  apply List.ext_getElem?
  intro m
  unfold applyEntry
  rw [if_pos rfl, markVisibleAt_getElem?]
  cases hgm : els[m]? with
  | none => simp
  | some elm =>
    by_cases hmi : m = i
    · subst hmi
      rw [hg] at hgm
      cases hgm
      obtain ⟨v, o, dl⟩ := el
      simp only at hv ho
      subst hv
      subst ho
      simp
    · simp [hmi]

/-- Witness for C9: a concrete two-element fade set, one delivered
intersection for element 0, and the no-op of a repeated entry. -/
theorem c9_fade_in_one_shot_witness :
    ((setupScrollAnimations 2)[0]? =
      if 0 < 2 then some ⟨false, true, (0 : ℚ) * (1 / 10)⟩ else none) ∧
    (((runObserver (runObserver (setupScrollAnimations 2) [(0, true)]) [(0, true)])[0]?).map
        FadeElem.visible = some true) ∧
    (applyEntry (runObserver (setupScrollAnimations 2) [(0, true)]) (0, true) =
      runObserver (setupScrollAnimations 2) [(0, true)]) :=
  ⟨(c9_fade_in_one_shot 2 [(0, true)] 0).1,
   (c9_fade_in_one_shot 2 [(0, true)] 0).2.1
     (runObserver (setupScrollAnimations 2) [(0, true)]) (by decide),
   (c9_fade_in_one_shot 2 [(0, true)] 0).2.2.2.2
     (runObserver (setupScrollAnimations 2) [(0, true)])
     ⟨true, false, ((0 : ℕ) : ℚ) * (1 / 10)⟩
     (runObserver_inv [(0, true)] (setupScrollAnimations 2)
       (setupScrollAnimations_inv 2))
     rfl rfl⟩

end Portfolio
